import Mathlib

/-!
Verification of the Filter & Aggregate Engine of the Good_Dashboard repository
(src/app.py): the filter cascade, the KPI aggregator, the candidate-value
lists of the cascading sidebar filters, the top-10-per-product view and the
low-sales advisory, embedded shallowly as Lean functions over lists of rows.

Dates are modelled as integers (pandas timestamps form a linear order and the
code only compares them); money and quantity columns are modelled as rationals
so that sums and the margin-rate division are exact; nullable categorical
columns are `Option String` (`none` is pandas NaN, which compares unequal to
every selected value and is dropped by `dropna`).
-/

namespace GoodDashboard

/-- One row of the superstore table, with the columns the engine reads
(`Order Date`, `Region`, `State`, `Category`, `Sub-Category`, `Product Name`,
`Sales`, `Quantity`, `Profit`). -/
structure Row where
  orderDate : Int
  region : Option String
  state : Option String
  category : Option String
  subCategory : Option String
  productName : String
  sales : ℚ
  quantity : ℚ
  profit : ℚ
deriving DecidableEq

/-- The sidebar selection: each categorical slot is either the sentinel
`"All"` or a concrete value, plus the inclusive date range. -/
structure Selection where
  region : String
  state : String
  category : String
  subCategory : String
  fromDate : Int
  toDate : Int
deriving DecidableEq

/-- The row predicate of one categorical filter step of app.py
(`df if sel == "All" else df[df[col] == sel]`): pass-through on the sentinel,
otherwise exact equality with the (non-null) field value. -/
def fieldPred (f : Row → Option String) (sel : String) (r : Row) : Bool :=
  if sel = "All" then true else decide (f r = some sel)

/-- One categorical filter step of the cascade (app.py lines 29/33/37/42). -/
def filterField (f : Row → Option String) (sel : String) (rows : List Row) : List Row :=
  if sel = "All" then rows else rows.filter (fun r => decide (f r = some sel))

/-- The inclusive date-range predicate of app.py lines 52-53:
`(df["Order Date"] >= from) & (df["Order Date"] <= to)`. -/
def datePred (fromDate toDate : Int) (r : Row) : Bool :=
  decide (fromDate ≤ r.orderDate) && decide (r.orderDate ≤ toDate)

/-- The full filter cascade of app.py lines 29-53: region, then state, then
category, then sub-category, then the inclusive date range. -/
def apply_filters (rows : List Row) (s : Selection) : List Row :=
  let r1 := filterField Row.region s.region rows
  let r2 := filterField Row.state s.state r1
  let r3 := filterField Row.category s.category r2
  let r4 := filterField Row.subCategory s.subCategory r3
  r4.filter (datePred s.fromDate s.toDate)

/-- The candidate-value list offered for one categorical filter
(`["All"] + sorted(df[col].dropna().unique())`, app.py lines 28/32/36/40):
the sentinel followed by the distinct non-null values, sorted ascending. -/
def candidateValues (f : Row → Option String) (rows : List Row) : List String :=
  "All" :: List.insertionSort (· ≤ ·) (rows.filterMap f).dedup

/-- The KPI snapshot of app.py lines 56-62. -/
structure KPI where
  totalSales : ℚ
  totalQuantity : ℚ
  totalProfit : ℚ
  marginRate : ℚ
deriving DecidableEq

/-- KPI computation of app.py lines 56-62: all zero on an empty filtered
frame, otherwise column sums with a zero-sales guard on the margin rate. -/
def compute_kpis (rows : List Row) : KPI :=
  if rows.isEmpty then ⟨0, 0, 0, 0⟩
  else
    let totalSales := (rows.map Row.sales).sum
    let totalQuantity := (rows.map Row.quantity).sum
    let totalProfit := (rows.map Row.profit).sum
    ⟨totalSales, totalQuantity, totalProfit,
      if totalSales ≠ 0 then totalProfit / totalSales else 0⟩

/-- `df_original["Sales"].mean()` (app.py line 140): mean of the Sales column
over the entire unfiltered dataset. -/
def avg_sales (dataset : List Row) : ℚ :=
  ((dataset.map Row.sales).sum) / dataset.length

/-- The low-sales advisory predicate of app.py line 141
(`total_sales < avg_sales * 0.5`): a pure comparison of the two
already-computed numbers. -/
def lowSalesPred (avgSales totalSales : ℚ) : Bool :=
  decide (totalSales < avgSales * (1 / 2))

/-- One aggregated group of the per-product view (app.py lines 105-106):
a product name with the sums of its numeric columns. -/
structure ProductAgg where
  productName : String
  sales : ℚ
  quantity : ℚ
  profit : ℚ
deriving DecidableEq

/-- The aggregate row of one product group: sums of the numeric columns over
the rows bearing that product name. -/
def productAggFor (rows : List Row) (p : String) : ProductAgg :=
  let grp := rows.filter (fun r => decide (r.productName = p))
  ⟨p, (grp.map Row.sales).sum, (grp.map Row.quantity).sum, (grp.map Row.profit).sum⟩

/-- `filtered_df.groupby("Product Name")[numeric].sum()` (app.py lines
105-106): one aggregate row per distinct product name (pandas groupby sorts
the group keys ascending). -/
def groupByProduct (rows : List Row) : List ProductAgg :=
  (List.insertionSort (· ≤ ·) (rows.map Row.productName).dedup).map (productAggFor rows)

/-- Descending-by-Sales comparison used by
`sort_values(by="Sales", ascending=False)` (app.py line 107). -/
def salesDesc (a b : ProductAgg) : Prop := b.sales ≤ a.sales

instance : DecidableRel salesDesc := fun a b => inferInstanceAs (Decidable (b.sales ≤ a.sales))

instance : IsTotal ProductAgg salesDesc := ⟨fun a b => le_total b.sales a.sales⟩

instance : IsTrans ProductAgg salesDesc := ⟨fun _ _ _ h1 h2 => le_trans h2 h1⟩

/-- `top_products.sort_values(by="Sales", ascending=False).head(10)`
(app.py line 107): the per-product aggregates sorted descending by Sales,
truncated to the first 10. -/
def top_10 (rows : List Row) : List ProductAgg :=
  (List.insertionSort salesDesc (groupByProduct rows)).take 10

/-- The KPI choices offered by the radio control of app.py line 95. -/
inductive KpiChoice where
  | sales
  | profit
  | quantity
deriving DecidableEq

/-- The value of the selected KPI in a per-product aggregate group. -/
def kpiValue : KpiChoice → ProductAgg → ℚ
  | KpiChoice.sales, g => g.sales
  | KpiChoice.profit, g => g.profit
  | KpiChoice.quantity, g => g.quantity

/-- The pages of the radio navigation of app.py lines 24-25. -/
inductive Page where
  | overview
  | detailedAnalysis
  | productInsights
  | customVisualizations
  | downloadReport
deriving DecidableEq

/-- The outputs of one script run (one interaction): the filtered rows, the
KPI snapshot, the two advisories, and the page-specific views. -/
structure RunResult where
  filtered : List Row
  kpis : KPI
  dateOrderError : Bool
  lowSalesAlert : Bool
  productView : Option (List ProductAgg)
  csvExport : Option (List Row)
deriving DecidableEq

/-- One full script run of app.py: filter cascade, KPI computation, the
date-order advisory (line 49-50), the page-specific view, and the low-sales
advisory (lines 140-142), which is computed outside the page branch. -/
def runApp (dataset : List Row) (page : Page) (s : Selection) : RunResult :=
  let filtered := apply_filters dataset s
  let kpis := compute_kpis filtered
  { filtered := filtered
    kpis := kpis
    dateOrderError := decide (s.toDate < s.fromDate)
    lowSalesAlert := lowSalesPred (avg_sales dataset) kpis.totalSales
    productView := if page = Page.productInsights then some (top_10 filtered) else none
    csvExport := if page = Page.downloadReport then some filtered else none }

/-- Modelled from the spec: the period-comparison aggregate `prev_sales`
(spec §4.2) belongs to a repository variant absent from the sources; the spec
defines it as the sum of Sales over all dataset rows whose Order Date is
strictly before `date_from`, unfiltered by anything else. -/
def prev_sales (dataset : List Row) (dateFrom : Int) : ℚ :=
  ((dataset.filter (fun r => decide (r.orderDate < dateFrom))).map Row.sales).sum

/-- Modelled from the spec: the period-over-period delta `sales_change_pct`
(spec §4.2), from a repository variant absent from the sources:
`(total_sales − prev_sales) / prev_sales × 100` when `prev_sales ≠ 0`,
else `0`. -/
def sales_change_pct (totalSales prevSales : ℚ) : ℚ :=
  if prevSales ≠ 0 then (totalSales - prevSales) / prevSales * 100 else 0

/-- The combined row predicate of the whole cascade: a row survives exactly
when it passes every categorical filter and the date range. -/
def selectionPred (s : Selection) (r : Row) : Bool :=
  datePred s.fromDate s.toDate r &&
    (fieldPred Row.subCategory s.subCategory r &&
      (fieldPred Row.category s.category r &&
        (fieldPred Row.state s.state r && fieldPred Row.region s.region r)))

lemma filterField_eq_filter (f : Row → Option String) (sel : String) (rows : List Row) :
    filterField f sel rows = rows.filter (fieldPred f sel) := by
  by_cases h : sel = "All"
  · subst h
    have hp : fieldPred f "All" = fun _ => true := funext fun r => by simp [fieldPred]
    simp [filterField, hp]
  · have hp : fieldPred f sel = fun r => decide (f r = some sel) :=
      funext fun r => by simp [fieldPred, h]
    simp [filterField, h, hp]

lemma apply_filters_eq_filter (rows : List Row) (s : Selection) :
    apply_filters rows s = rows.filter (selectionPred s) := by
  simp only [apply_filters, filterField_eq_filter, List.filter_filter]
  rfl

lemma filterField_sublist (f : Row → Option String) (sel : String) (rows : List Row) :
    (filterField f sel rows).Sublist rows := by
  rw [filterField_eq_filter]; exact List.filter_sublist rows

/-- Claim C1: for every dataset and filter selection, the result of the
filter cascade is a subsequence of the dataset: every output row occurs in
the input, relative order is preserved, and no row is duplicated or
fabricated. -/
theorem apply_filters_sublist (D : List Row) (S : Selection) :
    (apply_filters D S).Sublist D := by
  rw [apply_filters_eq_filter]; exact List.filter_sublist D

/-- Claim C8: the filter cascade is idempotent — applying the same selection
a second time to the already-filtered result changes nothing. -/
theorem apply_filters_idem (D : List Row) (S : Selection) :
    apply_filters (apply_filters D S) S = apply_filters D S := by
  rw [apply_filters_eq_filter D S, apply_filters_eq_filter (D.filter (selectionPred S)) S]
  exact List.filter_eq_self.mpr fun a ha => (List.mem_filter.mp ha).2

/-- Claim C2: on an empty filtered row set the KPI computation returns
total_sales = total_quantity = total_profit = margin_rate = 0 exactly. -/
theorem compute_kpis_nil : compute_kpis [] = ⟨0, 0, 0, 0⟩ := rfl

/-- Claim C3: on a non-empty filtered row set the KPIs are the column sums of
Sales, Quantity and Profit, and the margin rate is total_profit / total_sales
guarded to 0 when total_sales is zero. -/
theorem compute_kpis_nonempty (rows : List Row) (h : rows ≠ []) :
    compute_kpis rows =
      ⟨(rows.map Row.sales).sum, (rows.map Row.quantity).sum, (rows.map Row.profit).sum,
        if (rows.map Row.sales).sum ≠ 0 then
          (rows.map Row.profit).sum / (rows.map Row.sales).sum
        else 0⟩ := by
  have he : rows.isEmpty = false := List.isEmpty_eq_false.mpr h
  simp [compute_kpis, he]

/-- A sample row used to instantiate the hypotheses of the theorems above on
concrete data. -/
def exRowA : Row :=
  ⟨0, some "East", some "New York", some "Furniture", some "Chairs", "P1", 2, 3, 1⟩

theorem compute_kpis_nonempty_witness :
    ([exRowA] : List Row) ≠ [] ∧ compute_kpis [exRowA] = ⟨2, 3, 1, 1 / 2⟩ :=
  ⟨List.cons_ne_nil _ _,
    (compute_kpis_nonempty [exRowA] (List.cons_ne_nil _ _)).trans (by norm_num [exRowA])⟩

/-- Claim C4: `prev_sales` is the sum of Sales over the rows of the full
unfiltered dataset whose Order Date is strictly before `date_from` (stated as
a guarded sum ranging over every dataset row), and `sales_change_pct` is the
relative delta times 100 when `prev_sales` is nonzero and 0 when it is
zero. -/
theorem prev_sales_change_spec (D : List Row) (dateFrom : Int) (ts ps : ℚ) (hps : ps ≠ 0) :
    prev_sales D dateFrom =
        (D.map fun r => if r.orderDate < dateFrom then r.sales else 0).sum ∧
      sales_change_pct ts ps = (ts - ps) / ps * 100 ∧
      sales_change_pct ts 0 = 0 := by
  refine ⟨?_, by simp [sales_change_pct, hps], by simp [sales_change_pct]⟩
  induction D with
  | nil => rfl
  | cons r t ih =>
    by_cases h : r.orderDate < dateFrom <;>
      simp [prev_sales, List.filter_cons, h] <;>
      simpa [prev_sales] using ih

theorem prev_sales_change_spec_witness :
    (2 : ℚ) ≠ 0 ∧
      (prev_sales [exRowA] 1 =
          (([exRowA] : List Row).map fun r => if r.orderDate < 1 then r.sales else 0).sum ∧
        sales_change_pct 3 2 = (3 - 2) / 2 * 100 ∧
        sales_change_pct 3 0 = 0) :=
  ⟨by norm_num, prev_sales_change_spec [exRowA] 1 3 2 (by norm_num)⟩

/-- Claim C6: when `date_from > date_to` the run signals the ordering-error
advisory but still applies the date filter, and the filtered result is
empty. -/
theorem date_order_error_empty (D : List Row) (p : Page) (s : Selection)
    (h : s.toDate < s.fromDate) :
    (runApp D p s).dateOrderError = true ∧ (runApp D p s).filtered = [] := by
  constructor
  · exact decide_eq_true h
  · show apply_filters D s = []
    rw [apply_filters_eq_filter]
    refine List.filter_eq_nil_iff.mpr fun r _ => ?_
    simp only [selectionPred, datePred, Bool.and_eq_true, decide_eq_true_iff]
    rintro ⟨⟨h1, h2⟩, -⟩
    omega

/-- A selection whose date range is inverted (`from` after `to`) and whose
categorical slots are all the sentinel. -/
def sBad : Selection := ⟨"All", "All", "All", "All", 5, 0⟩

theorem date_order_error_empty_witness :
    sBad.toDate < sBad.fromDate ∧
      ((runApp [exRowA] Page.overview sBad).dateOrderError = true ∧
        (runApp [exRowA] Page.overview sBad).filtered = []) :=
  ⟨by decide, date_order_error_empty [exRowA] Page.overview sBad (by decide)⟩

/-- The property claim C7 asserts of one candidate-value list: it starts with
the sentinel "All", and the rest is the distinct non-null values of the field
among the surviving rows, sorted ascending and without duplicates. -/
def offeredOk (f : Row → Option String) (rows : List Row) : Prop :=
  (candidateValues f rows).head? = some "All" ∧
    List.Sorted (· ≤ ·) (candidateValues f rows).tail ∧
    (candidateValues f rows).tail.Nodup ∧
    ∀ v, v ∈ (candidateValues f rows).tail ↔ some v ∈ rows.map f

lemma offeredOk_candidateValues (f : Row → Option String) (rows : List Row) :
    offeredOk f rows := by
  refine ⟨rfl, List.sorted_insertionSort _ _,
    (List.perm_insertionSort _ _).nodup_iff.mpr (List.nodup_dedup _), fun v => ?_⟩
  show v ∈ List.insertionSort (· ≤ ·) (rows.filterMap f).dedup ↔ some v ∈ rows.map f
  rw [(List.perm_insertionSort _ _).mem_iff, List.mem_dedup, List.mem_filterMap,
    List.mem_map]

/-- Claim C7: at every level of the cascade (region, then state, then
category, then sub-category) the offered candidate values are exactly the
distinct non-null values of that field among the rows surviving the previous
filters, sorted ascending, preceded by the sentinel "All". -/
theorem candidate_values_cascade (D : List Row) (s : Selection) :
    offeredOk Row.region D ∧
      offeredOk Row.state (filterField Row.region s.region D) ∧
      offeredOk Row.category
        (filterField Row.state s.state (filterField Row.region s.region D)) ∧
      offeredOk Row.subCategory
        (filterField Row.category s.category
          (filterField Row.state s.state (filterField Row.region s.region D))) :=
  ⟨offeredOk_candidateValues _ _, offeredOk_candidateValues _ _,
    offeredOk_candidateValues _ _, offeredOk_candidateValues _ _⟩

/-- A row of product "A" with high Sales and zero Profit. -/
def exRowS : Row := ⟨0, none, none, none, none, "A", 100, 1, 0⟩

/-- A row of product "B" with lower Sales but higher Profit. -/
def exRowT : Row := ⟨0, none, none, none, none, "B", 50, 1, 10⟩

/-- Two rows on which sorting by Sales and sorting by Profit disagree. -/
def exRowsC5 : List Row := [exRowS, exRowT]

/-- Claim C5 counterexample: with the KPI selection set to Profit, the
per-product top-10 view of the code is not sorted descending by the selected
KPI — the view always sorts by Sales, so the group with Profit 0 (product
"A", Sales 100) precedes the group with Profit 10 (product "B", Sales 50). -/
theorem top_10_not_sorted_by_selected_kpi :
    ¬ List.Sorted (fun a b => kpiValue KpiChoice.profit b ≤ kpiValue KpiChoice.profit a)
        (top_10 exRowsC5) := by
  have hfA : exRowsC5.filter (fun r => decide (r.productName = "A")) = [exRowS] := by decide
  have hfB : exRowsC5.filter (fun r => decide (r.productName = "B")) = [exRowT] := by decide
  have hA : productAggFor exRowsC5 "A" = ⟨"A", 100, 1, 0⟩ := by
    simp [productAggFor, hfA, exRowS]
  have hB : productAggFor exRowsC5 "B" = ⟨"B", 50, 1, 10⟩ := by
    simp [productAggFor, hfB, exRowT]
  have hl : (exRowsC5.map Row.productName).dedup = ["A", "B"] := by decide
  have hkeys : List.insertionSort (· ≤ ·) ((exRowsC5.map Row.productName).dedup) =
      ["A", "B"] := by
    rw [hl]
    simp [List.insertionSort, List.orderedInsert]
    try decide
  have hgroup : groupByProduct exRowsC5 =
      [(⟨"A", 100, 1, 0⟩ : ProductAgg), ⟨"B", 50, 1, 10⟩] := by
    rw [groupByProduct, hkeys, List.map_cons, List.map_cons, List.map_nil, hA, hB]
  have htop : top_10 exRowsC5 =
      [(⟨"A", 100, 1, 0⟩ : ProductAgg), ⟨"B", 50, 1, 10⟩] := by
    rw [top_10, hgroup]; decide
  rw [htop]
  decide

/-- Claim C5 (amended): the per-product view groups rows by Product Name
(each output group is the column-sum aggregate of the rows bearing its
product name), returns at most 10 groups, and is sorted descending by the
Sales column regardless of which KPI is currently selected. -/
theorem top_10_grouped_bounded_sorted (rows : List Row) :
    (top_10 rows).length ≤ 10 ∧
      List.Sorted salesDesc (top_10 rows) ∧
      ∀ g ∈ top_10 rows,
        g = productAggFor rows g.productName ∧ g.productName ∈ rows.map Row.productName := by
  refine ⟨List.length_take_le _ _,
    List.Pairwise.sublist (List.take_sublist _ _) (List.sorted_insertionSort _ _),
    fun g hg => ?_⟩
  have hg1 : g ∈ List.insertionSort salesDesc (groupByProduct rows) :=
    List.mem_of_mem_take hg
  have hg2 : g ∈ groupByProduct rows := (List.perm_insertionSort _ _).mem_iff.mp hg1
  obtain ⟨p, hp, rfl⟩ := List.mem_map.mp hg2
  have hp2 : p ∈ (rows.map Row.productName).dedup :=
    (List.perm_insertionSort _ _).mem_iff.mp hp
  exact ⟨rfl, List.mem_dedup.mp hp2⟩

/-- Claim C9: the low-sales advisory of a run is raised exactly when the
filtered total sales are strictly below half the mean Sales of the entire
unfiltered dataset, and it is the pure predicate `lowSalesPred` of the two
already-computed numbers. -/
theorem low_sales_advisory_iff (D : List Row) (p : Page) (s : Selection) :
    ((runApp D p s).lowSalesAlert = true ↔
        (runApp D p s).kpis.totalSales < (1 / 2) * avg_sales D) ∧
      (runApp D p s).lowSalesAlert =
        lowSalesPred (avg_sales D) ((runApp D p s).kpis.totalSales) := by
  constructor
  · have halert : (runApp D p s).lowSalesAlert =
        lowSalesPred (avg_sales D) ((runApp D p s).kpis.totalSales) := rfl
    rw [halert, lowSalesPred, decide_eq_true_iff, mul_comm]
  · rfl

/-- Claim C10: when the mean Sales of the dataset is positive, every
selection with an empty filtered result raises the low-sales advisory
(total sales 0 is below half a positive mean), and the advisory is computed
identically on every page of the navigation. -/
theorem empty_filter_triggers_alert (D : List Row) (p : Page) (s : Selection)
    (h1 : 0 < avg_sales D) (h2 : apply_filters D s = []) :
    (runApp D p s).lowSalesAlert = true ∧
      ∀ q : Page, (runApp D q s).lowSalesAlert = (runApp D p s).lowSalesAlert := by
  refine ⟨?_, fun q => rfl⟩
  show lowSalesPred (avg_sales D) (compute_kpis (apply_filters D s)).totalSales = true
  rw [h2]
  exact decide_eq_true (mul_pos h1 (by norm_num))

theorem empty_filter_triggers_alert_witness :
    0 < avg_sales [exRowA] ∧ apply_filters [exRowA] sBad = [] ∧
      ((runApp [exRowA] Page.detailedAnalysis sBad).lowSalesAlert = true ∧
        ∀ q : Page,
          (runApp [exRowA] q sBad).lowSalesAlert =
            (runApp [exRowA] Page.detailedAnalysis sBad).lowSalesAlert) :=
  ⟨by norm_num [avg_sales, exRowA], by decide,
    empty_filter_triggers_alert [exRowA] Page.detailedAnalysis sBad
      (by norm_num [avg_sales, exRowA]) (by decide)⟩

end GoodDashboard
